import Mathlib

/-!
# Verification of the session-token lifecycle of the Node account-management backend

Shallow embedding of the repository's controllers (`user.controller.js`), the
`verifyJWT` auth middleware, and the `uploadOnCloudinary` media helper, together
with theorems about the session-token lifecycle: login, logout, refresh-token
rotation, password change, and the auth middleware.

The user model module (`user.model.js`: `isPasswordCorrect`,
`generateAccessToken`, `generateRefreshToken`, and the pre-save password-hashing
hook) is absent from the available sources; those pieces are modelled from the
design document and are marked `Modelled from the spec:` in their doc comments.
Everything else is translated from the JavaScript source.

Modelling conventions:
* A serialized JWT string is modelled by its decoded content plus the secret it
  was signed with (`SignedToken`); HS256 signing of a fixed claims set is
  deterministic and injective, so structural equality of `SignedToken` models
  byte-for-byte equality of the serialized strings.  An arbitrary non-JWT string
  is the `malformed` constructor.
* JS `undefined`/absent values are `Option.none`; the JS falsiness of the empty
  string is modelled explicitly where the code checks truthiness of a string.
* Mongoose stores are a `List UserRecord`; `findById`/`findOne` return the first
  match, `save` replaces the record with the same `_id`.
* Thrown `ApiErrors(status, message)` become `Except.error (Failure.api ...)`;
  any other runtime exception (e.g. a `TypeError` from reading a property of
  `null`) becomes `Failure.raised`.  The top-level error boundary that converts
  uncaught failures into HTTP statuses is modelled from the spec.
-/

namespace NodeBackend

/-- Environment configuration: the two token secrets and TTLs
(`ACCESS_TOKEN_SECRET`, `REFRESH_TOKEN_SECRET`, and their expiries). -/
structure Env where
  accessTokenSecret : String
  refreshTokenSecret : String
  accessTokenTTL : Nat
  refreshTokenTTL : Nat
deriving DecidableEq, Repr

/-- The decoded content of a signed JWT produced by `jwt.sign({_id}, secret,
{expiresIn})`: subject id, issued-at, expiry, and the signing secret.  Structural
equality models byte equality of the serialized token string (deterministic,
injective serialization). -/
structure SignedToken where
  subject : Nat
  iat : Nat
  exp : Nat
  secret : String
deriving DecidableEq, Repr

/-- A bearer-token string: either a well-formed signed JWT or an arbitrary
malformed string. -/
inductive Jwt where
  | signed (t : SignedToken)
  | malformed (s : String)
deriving DecidableEq, Repr

/-- JS truthiness of an optional token string: `undefined` and the empty string
are falsy; a serialized JWT is a non-empty string, hence truthy. -/
def jwtFalsy : Option Jwt → Bool
  | none => true
  | some (.malformed s) => s = ""
  | some (.signed _) => false

/-- `jwt.verify(token, secret)` at clock time `now`: returns the decoded claims'
subject on success and a JS error message on failure (bad signature / wrong
secret, expiry, or malformed input).  A token is expired once `now` reaches its
`exp` claim. -/
def jwtVerify (tok : Jwt) (secret : String) (now : Nat) : Except String Nat :=
  match tok with
  | .malformed _ => .error "jwt malformed"
  | .signed t =>
    if t.secret ≠ secret then .error "invalid signature"
    else if t.exp ≤ now then .error "jwt expired"
    else .ok t.subject

/-- A stored user document (`user.model.js` schema as used by the controllers):
credential fields are the bcrypt `password` hash and the nullable
`refreshToken`. -/
structure UserRecord where
  _id : Nat
  username : String
  email : String
  fullname : String
  password : String
  refreshToken : Option Jwt
  avatar : String
  coverImage : String
deriving DecidableEq, Repr

/-- The user document with the credential fields projected away, as produced by
`.select("-password -refreshToken")`. -/
structure PublicUser where
  _id : Nat
  username : String
  email : String
  fullname : String
  avatar : String
  coverImage : String
deriving DecidableEq, Repr

/-- `.select("-password -refreshToken")` projection. -/
def toPublicUser (u : UserRecord) : PublicUser :=
  { _id := u._id, username := u.username, email := u.email,
    fullname := u.fullname, avatar := u.avatar, coverImage := u.coverImage }

/-- The Mongo collection of user documents. -/
abbrev Db := List UserRecord

/-- `User.findById(id)`: first document with the given `_id`. -/
def findById (db : Db) (id : Nat) : Option UserRecord :=
  List.find? (fun u => u._id = id) db

/-- `User.findOne({$or: [{username}, {email}]})` with possibly-absent
identifier fields.  An absent (`undefined`) identifier is modelled as matching
no document; no claim depends on the case where both identifiers are absent. -/
def findByUsernameOrEmail (db : Db) (username? email? : Option String) :
    Option UserRecord :=
  List.find? (fun u => username? = some u.username ∨ email? = some u.email) db

/-- `user.save()`: replace the stored document(s) with this `_id`. -/
def saveUser (db : Db) (u : UserRecord) : Db :=
  List.map (fun v => if v._id = u._id then u else v) db

/-- A thrown `ApiErrors(statusCode, message)`. -/
structure ApiError where
  statusCode : Nat
  message : String
deriving DecidableEq, Repr

/-- A failure escaping a controller: a deliberate `ApiErrors` throw, or any
other runtime exception (`TypeError`, library error). -/
inductive Failure where
  | api (e : ApiError)
  | raised (msg : String)
deriving DecidableEq, Repr

/-- Modelled from the spec: the top-level boundary converts every uncaught
failure into the standard error envelope — an `ApiErrors` keeps its status code,
any other exception surfaces as an internal server error (500). -/
def boundaryStatus : Failure → Nat
  | .api e => e.statusCode
  | .raised _ => 500

/-- Modelled from the spec: the Password Hasher's one-way `hash` (bcrypt in the
absent `user.model.js` pre-save hook).  Hashing is deterministic and injective;
the tag keeps digests disjoint from plaintexts. -/
def hashPassword (plaintext : String) : String :=
  "bcrypt$" ++ plaintext

/-- Modelled from the spec: `user.isPasswordCorrect(plaintext)` — bcrypt
verification of a plaintext against the stored digest, i.e. recompute and
compare. -/
def isPasswordCorrect (plaintext digest : String) : Bool :=
  hashPassword plaintext = digest

/-- Modelled from the spec: `user.generateAccessToken()` — sign the user's id
with the access secret and the short access TTL. -/
def generateAccessToken (env : Env) (now : Nat) (u : UserRecord) : Jwt :=
  .signed { subject := u._id, iat := now, exp := now + env.accessTokenTTL,
            secret := env.accessTokenSecret }

/-- Modelled from the spec: `user.generateRefreshToken()` — sign the user's id
with the distinct refresh secret and the long refresh TTL. -/
def generateRefreshToken (env : Env) (now : Nat) (u : UserRecord) : Jwt :=
  .signed { subject := u._id, iat := now, exp := now + env.refreshTokenTTL,
            secret := env.refreshTokenSecret }

/-- `generateAccessTokenAndRefreshToken(userId)`: look the user up, mint both
tokens, persist the refresh token on the user document, and return the pair
(as the object `{ accessToken, refreshToken }`).  Any exception inside is
caught and rethrown as `ApiErrors(500, ...)`; `findById` returning `null`
makes `user.generateAccessToken()` throw, landing in that catch. -/
def generateAccessTokenAndRefreshToken (env : Env) (now : Nat) (db : Db)
    (userId : Nat) : Except ApiError (Db × Jwt × Jwt) :=
  match findById db userId with
  | none => .error ⟨500, "Internal server error while generating tokens"⟩
  | some user =>
    let accessToken := generateAccessToken env now user
    let refreshToken := generateRefreshToken env now user
    let user' := { user with refreshToken := some refreshToken }
    .ok (saveUser db user', accessToken, refreshToken)

/-- JS truthiness of an optional string: `undefined` and `""` are falsy. -/
def strFalsy : Option String → Bool
  | none => true
  | some s => s = ""

/-- Successful `LoginUser` response: HTTP status, the two `res.cookie` values,
and the JSON body `{ user, accessToken, refreshToken }`. -/
structure LoginOk where
  status : Nat
  cookieAccessToken : Jwt
  cookieRefreshToken : Jwt
  bodyUser : Option PublicUser
  bodyAccessToken : Jwt
  bodyRefreshToken : Jwt
deriving DecidableEq, Repr

/-- `LoginUser` controller: validate that a username or email was supplied,
resolve the user, verify the password, mint and persist tokens, reload the user
without credential fields, and answer 200 with both tokens as cookies and in
the body.  Returns the resulting store alongside the outcome. -/
def LoginUser (env : Env) (now : Nat) (db : Db)
    (username? email? : Option String) (password : String) :
    Db × Except ApiError LoginOk :=
  if strFalsy username? ∧ strFalsy email? then
    (db, .error ⟨400, "username or email is required"⟩)
  else
    match findByUsernameOrEmail db username? email? with
    | none => (db, .error ⟨404, "user does not exists"⟩)
    | some user =>
      if ¬ isPasswordCorrect password user.password then
        (db, .error ⟨401, "invalid password"⟩)
      else
        match generateAccessTokenAndRefreshToken env now db user._id with
        | .error e => (db, .error e)
        | .ok (db', accessToken, refreshToken) =>
          let loggedInUser := Option.map toPublicUser (findById db' user._id)
          (db', .ok { status := 200,
                      cookieAccessToken := accessToken,
                      cookieRefreshToken := refreshToken,
                      bodyUser := loggedInUser,
                      bodyAccessToken := accessToken,
                      bodyRefreshToken := refreshToken })

/-- The `$set: { refreshToken: value }` payload of `findByIdAndUpdate`, where
`value = none` models the JS literal `undefined`.  Mongoose strips keys whose
value is `undefined` from update documents before sending them to the server
(`omitUndefined` behavior, unconditional since Mongoose 6), so `$set` with
`undefined` leaves the stored document unchanged; only a present value
overwrites the field. -/
def setRefreshToken (u : UserRecord) (value : Option Jwt) : UserRecord :=
  match value with
  | none => u
  | some t => { u with refreshToken := some t }

/-- `User.findByIdAndUpdate(id, { $set: { refreshToken: value } })`. -/
def findByIdAndUpdateRefreshToken (db : Db) (id : Nat) (value : Option Jwt) :
    Db :=
  match findById db id with
  | none => db
  | some u => saveUser db (setRefreshToken u value)

/-- `LoggedOutUser` controller: `findByIdAndUpdate(req.user._id,
{ $set: { refreshToken: undefined } })`, clear both cookies, answer 200.
Returns the resulting store and the HTTP status. -/
def LoggedOutUser (db : Db) (userId : Nat) : Db × Nat :=
  (findByIdAndUpdateRefreshToken db userId none, 200)

/-- Successful `refreshAccessToken` response: HTTP status, the two cookie
values, and the JSON body `{ accessToken, refreshToken: newRefreshToken }`.
The refresh-token cookie and body field hold `Option Jwt` because the code
reads the variable `newRefreshToken`, which can be `undefined`. -/
structure RefreshOk where
  status : Nat
  cookieAccessToken : Jwt
  cookieRefreshToken : Option Jwt
  bodyAccessToken : Jwt
  bodyRefreshToken : Option Jwt
deriving DecidableEq, Repr

/-- Body of the `try` block of `refreshAccessToken`: verify the incoming token
against the refresh secret, load the user, compare the incoming token
byte-for-byte with the stored one, then mint and persist new tokens.  The
destructuring `const { accessToken, newRefreshToken } = await
generateAccessTokenAndRefreshToken(...)` reads the property `newRefreshToken`
of an object whose keys are `accessToken` and `refreshToken`, so
`newRefreshToken` is `undefined` (`none`); the response cookie and body carry
that `undefined` value. -/
def refreshTry (env : Env) (now : Nat) (db : Db) (incoming : Jwt) :
    Db × Except ApiError RefreshOk :=
  match jwtVerify incoming env.refreshTokenSecret now with
  | .error msg => (db, .error ⟨401, msg⟩)
  | .ok subject =>
    match findById db subject with
    | none => (db, .error ⟨401, "invalid refresh token"⟩)
    | some user =>
      if some incoming ≠ user.refreshToken then
        (db, .error ⟨401, "refresh token is expired or invalid"⟩)
      else
        match generateAccessTokenAndRefreshToken env now db user._id with
        | .error e => (db, .error e)
        | .ok (db', accessToken, _refreshToken) =>
          let newRefreshToken : Option Jwt := none
          (db', .ok { status := 200,
                      cookieAccessToken := accessToken,
                      cookieRefreshToken := newRefreshToken,
                      bodyAccessToken := accessToken,
                      bodyRefreshToken := newRefreshToken })

/-- `refreshAccessToken` controller.  The missing-token check happens before
the `try`; everything else runs inside it, and the `catch` collapses every
failure (including the `ApiErrors` thrown inside the `try`) into
`ApiErrors(401, error.message || "invalid refresh token")`. -/
def refreshAccessToken (env : Env) (now : Nat) (db : Db)
    (incoming? : Option Jwt) : Db × Except ApiError RefreshOk :=
  if jwtFalsy incoming? then
    (db, .error ⟨401, "unauthorized request"⟩)
  else
    match incoming? with
    | none => (db, .error ⟨401, "unauthorized request"⟩)
    | some incoming =>
      match refreshTry env now db incoming with
      | (db', .ok r) => (db', .ok r)
      | (db', .error e) =>
        (db', .error ⟨401, if e.message = "" then "invalid refresh token"
                           else e.message⟩)

/-- `changeCurrentPassword` controller: load the authenticated user, verify the
old password, set the new one (hashed by the pre-save hook, modelled from the
spec) and save.  A `null` user would make `user.isPasswordCorrect` throw a
`TypeError`.  Answers 400 "invalid old password" on mismatch and 200 on
success. -/
def changeCurrentPassword (db : Db) (userId : Nat)
    (oldPassword newPassword : String) : Db × Except Failure Nat :=
  match findById db userId with
  | none => (db, .error (.raised "TypeError: cannot read properties of null"))
  | some user =>
    if ¬ isPasswordCorrect oldPassword user.password then
      (db, .error (.api ⟨400, "invalid old password"⟩))
    else
      (saveUser db { user with password := hashPassword newPassword }, .ok 200)

/-- Result object of a successful `cloudinary.uploader.upload` call (only the
`url` field is consumed by the controllers). -/
structure UploadResult where
  url : String
deriving DecidableEq, Repr

/-- Outcome of the external Cloudinary upload call for a given file: the
service returns a result, or the call throws. -/
inductive CloudOutcome where
  | ok (r : UploadResult)
  | throws (msg : String)
deriving DecidableEq, Repr

/-- `uploadOnCloudinary(localFilePath)` from `src/utils/cloudinary.js`.
Returns the upload result (or `null`) together with whether the local temp
file was deleted (`fs.unlinkSync`).  A falsy path (`undefined` or `""`) returns
`null` immediately without touching the filesystem; otherwise the temp file is
unlinked after the upload returns, and also in the `catch` branch when the
upload throws, where the function returns `null` instead of re-raising. -/
def uploadOnCloudinary (localFilePath : Option String)
    (outcome : CloudOutcome) : Option UploadResult × Bool :=
  if strFalsy localFilePath then (none, false)
  else
    match outcome with
    | .ok r => (some r, true)
    | .throws _ => (none, true)

/-- Successful avatar/cover-image update response: HTTP status and the updated
user document from `findByIdAndUpdate(...).select("-password")` (which can be
`null`). -/
structure UpdateImageOk where
  status : Nat
  bodyUser : Option PublicUser
deriving DecidableEq, Repr

/-- `updateUserAvatar` controller: require an uploaded file, push it to
Cloudinary, then `if (!avatar.url)` — when the upload failed,
`uploadOnCloudinary` returned `null` and reading `.url` of `null` throws a
`TypeError`, modelled as `Failure.raised`; the intended 400 branch is reached
only when a result object came back with a falsy `url`.  On success the user's
`avatar` field is updated.  (`.select("-password")` keeps the `refreshToken`
field in the real response; the projection here reuses `toPublicUser`, which
is immaterial to the claims, all about statuses.) -/
def updateUserAvatar (db : Db) (userId : Nat) (filePath : Option String)
    (outcome : CloudOutcome) : Db × Except Failure UpdateImageOk :=
  if strFalsy filePath then
    (db, .error (.api ⟨400, "Avatar file is missing"⟩))
  else
    match uploadOnCloudinary filePath outcome with
    | (none, _) =>
      (db, .error (.raised "TypeError: cannot read properties of null (reading url)"))
    | (some avatar, _) =>
      if avatar.url = "" then
        (db, .error (.api ⟨400, "Error while uploading on avatar"⟩))
      else
        match findById db userId with
        | none => (db, .ok { status := 200, bodyUser := none })
        | some u =>
          let u' := { u with avatar := avatar.url }
          (saveUser db u', .ok { status := 200, bodyUser := some (toPublicUser u') })

/-- `updateUserCoverImage` controller: same shape as `updateUserAvatar`, for
the `coverImage` field; the failed-upload read `coverImage.url` likewise throws
on `null`. -/
def updateUserCoverImage (db : Db) (userId : Nat) (filePath : Option String)
    (outcome : CloudOutcome) : Db × Except Failure UpdateImageOk :=
  if strFalsy filePath then
    (db, .error (.api ⟨400, "Cover image file is missing"⟩))
  else
    match uploadOnCloudinary filePath outcome with
    | (none, _) =>
      (db, .error (.raised "TypeError: cannot read properties of null (reading url)"))
    | (some coverImage, _) =>
      if coverImage.url = "" then
        (db, .error (.api ⟨400, "Error while uploading cover image"⟩))
      else
        match findById db userId with
        | none => (db, .ok { status := 200, bodyUser := none })
        | some u =>
          let u' := { u with coverImage := coverImage.url }
          (saveUser db u', .ok { status := 200, bodyUser := some (toPublicUser u') })

/-- A registration request body plus the multer file paths
(`req.files?.avatar?.[0]?.path`, `req.files?.coverImage?.[0]?.path`); each body
field may be absent (`undefined`). -/
structure RegisterRequest where
  fullname : Option String
  email : Option String
  username : Option String
  password : Option String
  avatarPath : Option String
  coverImagePath : Option String
deriving DecidableEq, Repr

/-- JS `String.prototype.trim()`: strip leading and trailing whitespace
(executable model over the character list). -/
def jsTrim (s : String) : String :=
  String.mk (List.reverse (List.dropWhile Char.isWhitespace
    (List.reverse (List.dropWhile Char.isWhitespace s.data))))

/-- JS `String.prototype.toLowerCase()` (executable model over the character
list). -/
def jsToLowerCase (s : String) : String :=
  String.mk (List.map Char.toLower s.data)

/-- One disjunct of the required-fields check `f?.trim() === ""`: an absent
field short-circuits `?.` to `undefined`, and `undefined === ""` is `false`,
so only a present field whose trim is the empty string triggers it. -/
def fieldEmptyAfterTrim : Option String → Bool
  | none => false
  | some s => jsTrim s = ""

/-- The `registerUser` required-fields validation:
`[fullname, email, username, password].some((f) => f?.trim() === "")`. -/
def registerValidationFails (req : RegisterRequest) : Bool :=
  [req.fullname, req.email, req.username, req.password].any fieldEmptyAfterTrim

/-- Successful registration response: HTTP status 201 and the created user
reloaded without credential fields. -/
structure RegisterOk where
  status : Nat
  bodyUser : PublicUser
deriving DecidableEq, Repr

/-- `registerUser` after the required-fields validation: duplicate lookup
(409), mandatory avatar path (400), Cloudinary uploads, the `!avatar` check
(400 when the avatar upload returned `null`), then `User.create`.  At `create`,
`username.toLowerCase()` throws on an absent username, and the modelled
pre-save bcrypt hook / mongoose required-field validation rejects the other
absent fields (neither case is reachable in any claim).  `newId` is the `_id`
Mongo assigns to the created document. -/
def registerAfterValidation (db : Db) (req : RegisterRequest)
    (avatarOutcome coverOutcome : CloudOutcome) (newId : Nat) :
    Db × Except Failure RegisterOk :=
  match findByUsernameOrEmail db req.username req.email with
  | some _ => (db, .error (.api ⟨409, "User already exists"⟩))
  | none =>
    if strFalsy req.avatarPath then
      (db, .error (.api ⟨400, "Avatar file is required"⟩))
    else
      match uploadOnCloudinary req.avatarPath avatarOutcome with
      | (none, _) => (db, .error (.api ⟨400, "Avatar upload failed"⟩))
      | (some avatar, _) =>
        let coverImage? := (uploadOnCloudinary req.coverImagePath coverOutcome).1
        match req.username, req.fullname, req.email, req.password with
        | some username, some fullname, some email, some password =>
          let user : UserRecord :=
            { _id := newId, fullname := fullname, email := email,
              password := hashPassword password,
              username := jsToLowerCase username, refreshToken := none,
              avatar := avatar.url,
              coverImage := (Option.map UploadResult.url coverImage?).getD "" }
          let db' := user :: db
          match findById db' newId with
          | none => (db', .error (.api ⟨500, "User registration failed"⟩))
          | some created =>
            (db', .ok { status := 201, bodyUser := toPublicUser created })
        | none, _, _, _ =>
          (db, .error (.raised "TypeError: cannot read properties of undefined (reading toLowerCase)"))
        | _, _, _, _ =>
          (db, .error (.raised "required field absent at User.create"))

/-- `registerUser` controller: required-fields validation, then the rest. -/
def registerUser (db : Db) (req : RegisterRequest)
    (avatarOutcome coverOutcome : CloudOutcome) (newId : Nat) :
    Db × Except Failure RegisterOk :=
  if registerValidationFails req then
    (db, .error (.api ⟨400, "All fields are required"⟩))
  else
    registerAfterValidation db req avatarOutcome coverOutcome newId

/-- An incoming protected request, as seen by the middleware: the
`accessToken` cookie and the `Authorization` header value with the `"Bearer "`
prefix already stripped by `.replace`. -/
structure AuthRequest where
  cookieAccessToken : Option Jwt
  bearerHeaderToken : Option Jwt
deriving DecidableEq, Repr

/-- Token extraction of `verifyJWT`:
`req.cookies?.accessToken || req.header("Authorization")?.replace(...)` —
a falsy cookie (absent or empty) falls back to the header. -/
def extractToken (req : AuthRequest) : Option Jwt :=
  if jwtFalsy req.cookieAccessToken then req.bearerHeaderToken
  else req.cookieAccessToken

/-- `verifyJWT` middleware: extract the token, fail 401 when it is missing,
verify it against the access secret, load the user without credential fields,
fail 401 when absent, otherwise attach the user (`req.user`) and continue.
Every throw inside the `try` is caught and rethrown as `ApiErrors(401, ...)`,
so `.error` means the request was rejected with 401 and no identity was
attached; `.ok u` means `req.user = u` and `next()` was called. -/
def verifyJWT (env : Env) (now : Nat) (db : Db) (req : AuthRequest) :
    Except ApiError PublicUser :=
  if jwtFalsy (extractToken req) then
    .error ⟨401, "Unauthorized user (No token)"⟩
  else
    match extractToken req with
    | none => .error ⟨401, "Unauthorized user (No token)"⟩
    | some tok =>
      match jwtVerify tok env.accessTokenSecret now with
      | .error msg => .error ⟨401, msg⟩
      | .ok subject =>
        match findById db subject with
        | none => .error ⟨401, "Invalid access token (User not found)"⟩
        | some user => .ok (toPublicUser user)

/-! ## Concrete fixtures used by witnesses and concrete evaluations -/

/-- A concrete environment: distinct access and refresh secrets, a short and a
long TTL. -/
def env1 : Env :=
  { accessTokenSecret := "access-secret", refreshTokenSecret := "refresh-secret",
    accessTokenTTL := 10, refreshTokenTTL := 100 }

/-- A refresh token issued to user 1 at time 0 (signed with the refresh
secret, unexpired until time 100). -/
def refreshTok1 : Jwt :=
  .signed { subject := 1, iat := 0, exp := 100, secret := "refresh-secret" }

/-- An access token issued to user 1 at time 0 (signed with the access
secret, unexpired until time 10). -/
def accessTok1 : Jwt :=
  .signed { subject := 1, iat := 0, exp := 10, secret := "access-secret" }

/-- A logged-in user holding `refreshTok1` as the stored refresh token. -/
def ana1 : UserRecord :=
  { _id := 1, username := "ana", email := "a@x.com", fullname := "Ana",
    password := hashPassword "secret1", refreshToken := some refreshTok1,
    avatar := "http://img/av.png", coverImage := "" }

/-- A store holding just `ana1`. -/
def db1 : Db := [ana1]

/-- `db1` after `ana1` rotated her refresh token at time 5. -/
def db1rot : Db :=
  [{ ana1 with refreshToken := some (generateRefreshToken env1 5 ana1) }]

/-- `db1` after `ana1` changed her password to `"pw2"`. -/
def db1pw : Db := saveUser db1 { ana1 with password := hashPassword "pw2" }

/-- A complete registration request with all fields present and non-blank. -/
def regReq1 : RegisterRequest :=
  { fullname := some "Bob", email := some "b@x.com", username := some "Bob7",
    password := some "pw123", avatarPath := some "/tmp/a.png",
    coverImagePath := none }

/-- A registration request whose `username` field is absent (`undefined`)
while the present fields are non-blank. -/
def regReqNoUsername : RegisterRequest :=
  { fullname := some "Bob", email := some "a@x.com", username := none,
    password := some "pw123", avatarPath := some "/tmp/a.png",
    coverImagePath := none }

/-- A protected request presenting `accessTok1` in the cookie. -/
def authReq1 : AuthRequest :=
  { cookieAccessToken := some accessTok1, bearerHeaderToken := none }

/-! ## Helper lemmas about the store -/

/-- `save` commutes with `findById`: looking a document up in the saved store
is looking it up in the old store and applying the replacement (the
replacement preserves `_id`, so the search predicate is unaffected). -/
theorem findById_saveUser (db : Db) (w : UserRecord) (id : Nat) :
    findById (saveUser db w) id =
      Option.map (fun v => if v._id = w._id then w else v) (findById db id) := by
  unfold findById saveUser
  have hcomp : ((fun u : UserRecord => decide (u._id = id)) ∘
      fun v => if v._id = w._id then w else v)
      = (fun u : UserRecord => decide (u._id = id)) := by
    funext v
    by_cases h : v._id = w._id <;> simp [h, Function.comp]
  rw [List.find?_map, hcomp]

/-- The document found by `findById` carries the id it was looked up by. -/
theorem findById_id (db : Db) (id : Nat) (u : UserRecord)
    (h : findById db id = some u) : u._id = id := by
  have := List.find?_some h
  simpa using this

/-- Two successful lookups whose results carry the same `_id` return the same
document (the store is searched front to back both times). -/
theorem findById_eq_of_id (db : Db) (s : Nat) (v u : UserRecord)
    (hf : findById db s = some v) (hu : findById db u._id = some u)
    (hid : v._id = u._id) : v = u := by
  have hvs : v._id = s := findById_id db s v hf
  have hus : u._id = s := by rw [← hid, hvs]
  rw [hus, hf] at hu
  exact Option.some_inj.mp hu

/-- Inversion of a successful `jwt.verify` on a signed token: the returned
subject is the token's, the secret matched, and the token was unexpired. -/
theorem jwtVerify_ok_subject (st : SignedToken) (secret : String) (now uid : Nat)
    (h : jwtVerify (Jwt.signed st) secret now = Except.ok uid) :
    uid = st.subject ∧ st.secret = secret ∧ now < st.exp := by
  by_cases hs : st.secret = secret
  · by_cases he : st.exp ≤ now
    · simp [jwtVerify, hs, he] at h
    · simp [jwtVerify, hs, he] at h
      exact ⟨h.symm, hs, by omega⟩
  · simp [jwtVerify, hs] at h

/-- Inversion of a successful refresh: the presented token verified, the
subject's document was found, the stored refresh token equalled the presented
one byte for byte, and the store now holds the rotated token. -/
theorem refreshTry_ok_inv (env : Env) (now : Nat) (db db' : Db) (tok : Jwt)
    (r : RefreshOk) (h : refreshTry env now db tok = (db', Except.ok r)) :
    ∃ uid user, jwtVerify tok env.refreshTokenSecret now = Except.ok uid ∧
      findById db uid = some user ∧
      user.refreshToken = some tok ∧
      db' = saveUser db
        { user with refreshToken := some (generateRefreshToken env now user) } := by
  unfold refreshTry at h
  split at h
  · simp at h
  case _ uid hv =>
    split at h
    · simp at h
    case _ user hf =>
      split at h
      · simp at h
      case _ hne =>
        have heq : user.refreshToken = some tok := by
          by_contra hc
          exact hne (fun hx => hc hx.symm)
        unfold generateAccessTokenAndRefreshToken at h
        have hid : user._id = uid := findById_id db uid user hf
        rw [hid, hf] at h
        simp at h
        exact ⟨uid, user, hv, hf, heq, h.1.symm⟩

/-- Refresh outcome congruence: two stores that agree, for every id, on the
`(_id, refreshToken)` projection of the looked-up document give identical
refresh outcomes (the refresh flow reads nothing else from the store). -/
theorem refreshTry_snd_congr (env : Env) (t : Nat) (dbA dbB : Db) (tok : Jwt)
    (h : ∀ s, Option.map (fun v => (v._id, v.refreshToken)) (findById dbA s)
            = Option.map (fun v => (v._id, v.refreshToken)) (findById dbB s)) :
    (refreshTry env t dbA tok).2 = (refreshTry env t dbB tok).2 := by
  unfold refreshTry
  cases hv : jwtVerify tok env.refreshTokenSecret t with
  | error msg => simp
  | ok s =>
    dsimp only
    have hs := h s
    cases hfA : findById dbA s with
    | none =>
      rw [hfA] at hs
      cases hfB : findById dbB s with
      | none => rfl
      | some vB => rw [hfB] at hs; simp at hs
    | some vA =>
      rw [hfA] at hs
      cases hfB : findById dbB s with
      | none => rw [hfB] at hs; simp at hs
      | some vB =>
        rw [hfB] at hs
        simp at hs
        obtain ⟨hsid, hstok⟩ := hs
        dsimp only
        rw [hstok]
        by_cases hne : some tok ≠ vB.refreshToken
        · simp [hne]
        · rw [if_neg hne, if_neg hne]
          unfold generateAccessTokenAndRefreshToken
          have hgA := h vA._id
          rw [hsid] at hgA
          rw [hsid]
          cases hgA2 : findById dbA vB._id with
          | none =>
            rw [hgA2] at hgA
            cases hgB2 : findById dbB vB._id with
            | none => rfl
            | some wB => rw [hgB2] at hgA; simp at hgA
          | some wA =>
            rw [hgA2] at hgA
            cases hgB2 : findById dbB vB._id with
            | none => rw [hgB2] at hgA; simp at hgA
            | some wB =>
              rw [hgB2] at hgA
              simp at hgA
              obtain ⟨hwid, _⟩ := hgA
              simp [generateAccessToken, generateRefreshToken, hwid]

/-- Inversion of a successful password change: the user existed and the store
was updated with the new hash only. -/
theorem changePassword_ok_inv (db db' : Db) (uid : Nat) (o n : String)
    (h : changeCurrentPassword db uid o n = (db', Except.ok 200)) :
    ∃ u, findById db uid = some u ∧
      db' = saveUser db { u with password := hashPassword n } := by
  unfold changeCurrentPassword at h
  split at h
  · simp at h
  case _ u hu =>
    split at h
    · simp at h
    · simp at h
      exact ⟨u, hu, h.symm⟩

/-- Overwriting a stored user's password hash leaves the
`(_id, refreshToken)` projection of every lookup unchanged. -/
theorem proj_saveUser_password (db : Db) (u : UserRecord) (nh : String)
    (hu : findById db u._id = some u) :
    ∀ s, Option.map (fun v => (v._id, v.refreshToken))
        (findById (saveUser db { u with password := nh }) s)
      = Option.map (fun v => (v._id, v.refreshToken)) (findById db s) := by
  intro s
  rw [findById_saveUser]
  cases hf : findById db s with
  | none => rfl
  | some v =>
    by_cases hcase : v._id = u._id
    · have hvu : v = u := findById_eq_of_id db s v u hf hu hcase
      simp [hcase, hvu]
    · simp [hcase]

/-- No branch of `registerUser` past the required-fields validation produces
the validation error value. -/
theorem registerAfterValidation_ne_allFieldsError (db : Db)
    (req : RegisterRequest) (ao co : CloudOutcome) (newId : Nat) :
    (registerAfterValidation db req ao co newId).2
      ≠ Except.error (Failure.api ⟨400, "All fields are required"⟩) := by
  unfold registerAfterValidation
  repeat' split
  all_goals try simp
  all_goals
    intro hc
    split at hc <;> simp_all

/-! ## Claim theorems -/

/-- **C1** — refuted on the code (code bug).  A successful `refreshAccessToken`
call does persist a rotated refresh token on the identity record, but the
refresh token it returns (cookie and body alike) is JS `undefined`, because the
code destructures the property `newRefreshToken` from an object whose keys are
`accessToken` and `refreshToken`; so the returned refresh token is *not* the
newly persisted value. -/
theorem refresh_rotated_token_not_returned :
    ∃ db' r u, refreshAccessToken env1 5 db1 (some refreshTok1)
        = (db', Except.ok r) ∧
      r.status = 200 ∧
      findById db' 1 = some u ∧
      u.refreshToken = some (generateRefreshToken env1 5 ana1) ∧
      r.bodyRefreshToken = none ∧
      r.cookieRefreshToken = none ∧
      r.bodyRefreshToken ≠ u.refreshToken :=
  ⟨_, _, _, rfl, rfl, rfl, rfl, rfl, rfl, by simp⟩

/-- **C2** — refuted on the code (code bug).  `LoggedOutUser` updates with
`$set: { refreshToken: undefined }`; Mongoose strips `undefined` values from
update payloads before sending them, so the store is unchanged, the previously
issued refresh token remains the stored value, and presenting it to
`refreshAccessToken` afterwards still succeeds with 200 instead of failing
with 401. -/
theorem logout_does_not_clear_refreshToken :
    (LoggedOutUser db1 1).1 = db1 ∧
    (∃ u, findById (LoggedOutUser db1 1).1 1 = some u ∧
       u.refreshToken = some refreshTok1) ∧
    (∃ db' r, refreshAccessToken env1 5 (LoggedOutUser db1 1).1 (some refreshTok1)
        = (db', Except.ok r) ∧ r.status = 200) :=
  ⟨rfl, ⟨_, rfl, rfl⟩, ⟨_, _, rfl, rfl⟩⟩

/-- **C3** — confirmed.  Once a refresh with token `T` succeeds at time `t1`
(rotating the stored token; `T` was issued at a different instant, so the
rotated token differs from `T`), presenting the same `T` again at any time
`t2` fails with 401: the byte-for-byte comparison against the now-rotated
stored token (or the expiry check) rejects it. -/
theorem refresh_rotation_prevents_reuse (env : Env) (t1 t2 : Nat) (db db1 : Db)
    (st : SignedToken) (r : RefreshOk)
    (h1 : refreshAccessToken env t1 db (some (Jwt.signed st)) = (db1, Except.ok r))
    (hiat : st.iat ≠ t1) :
    ∃ e, (refreshAccessToken env t2 db1 (some (Jwt.signed st))).2
        = Except.error e ∧ e.statusCode = 401 := by
  unfold refreshAccessToken at h1
  simp [jwtFalsy] at h1
  rcases hrt : refreshTry env t1 db (Jwt.signed st) with ⟨dbx, resx⟩
  rw [hrt] at h1
  cases resx with
  | error e => simp at h1
  | ok r' =>
    simp at h1
    obtain ⟨uid, user, hv, hf, htok, hdbx⟩ :=
      refreshTry_ok_inv env t1 db dbx (Jwt.signed st) r' hrt
    have hdb1 : db1 = saveUser db
        { user with refreshToken := some (generateRefreshToken env t1 user) } := by
      rw [← h1.1, hdbx]
    unfold refreshAccessToken
    simp only [jwtFalsy]
    rcases hrt2 : refreshTry env t2 db1 (Jwt.signed st) with ⟨dby, resy⟩
    cases resy with
    | error e2 =>
      refine ⟨⟨401, if e2.message = "" then "invalid refresh token"
                    else e2.message⟩, ?_, rfl⟩
      simp [hrt2]
    | ok r2 =>
      exfalso
      obtain ⟨uid2, user2, hv2, hf2, htok2, _⟩ :=
        refreshTry_ok_inv env t2 db1 dby (Jwt.signed st) r2 hrt2
      have hs1 := jwtVerify_ok_subject st env.refreshTokenSecret t1 uid hv
      have hs2 := jwtVerify_ok_subject st env.refreshTokenSecret t2 uid2 hv2
      have hid12 : uid2 = uid := by rw [hs1.1, hs2.1]
      rw [hid12] at hf2
      have hiduser : user._id = uid := findById_id db uid user hf
      have hsave : findById db1 uid =
          some { user with refreshToken := some (generateRefreshToken env t1 user) } := by
        rw [hdb1, findById_saveUser]
        have hsame : ({ user with
          refreshToken := some (generateRefreshToken env t1 user) } : UserRecord)._id
            = user._id := rfl
        rw [hsame, hiduser, hf]
        simp [hiduser]
      rw [hsave] at hf2
      have huser2 : user2 = { user with
          refreshToken := some (generateRefreshToken env t1 user) } := by
        simpa using hf2.symm
      rw [huser2] at htok2
      unfold generateRefreshToken at htok2
      simp at htok2
      have hiat2 : st.iat = t1 := by
        have := congrArg SignedToken.iat htok2
        simpa using this.symm
      exact hiat hiat2

/-- Witness for `refresh_rotation_prevents_reuse`: user 1 rotates her refresh
token at time 5; replaying the original token (issued at time 0) at time 7 is
rejected with 401. -/
theorem refresh_rotation_prevents_reuse_witness :
    ∃ e, (refreshAccessToken env1 7 db1rot
        (some (Jwt.signed ⟨1, 0, 100, "refresh-secret"⟩))).2
        = Except.error e ∧ e.statusCode = 401 :=
  refresh_rotation_prevents_reuse env1 5 7 db1 db1rot
    ⟨1, 0, 100, "refresh-secret"⟩
    { status := 200, cookieAccessToken := generateAccessToken env1 5 ana1,
      cookieRefreshToken := none,
      bodyAccessToken := generateAccessToken env1 5 ana1,
      bodyRefreshToken := none }
    rfl (by decide)

/-- **C4** — confirmed.  For a valid login (identity resolvable, ids unique,
password verifies), `LoginUser` answers 200, the refresh token in the body
equals the refresh token cookie and equals the value now persisted on the
identity record, and the identity object in the body is the `PublicUser`
projection, which has no password-hash or refresh-token field. -/
theorem login_returns_persisted_refresh_token (env : Env) (now : Nat) (db : Db)
    (username? email? : Option String) (password : String) (u : UserRecord)
    (hval : ¬(strFalsy username? = true ∧ strFalsy email? = true))
    (hfind : findByUsernameOrEmail db username? email? = some u)
    (hbyid : findById db u._id = some u)
    (hpw : isPasswordCorrect password u.password = true) :
    ∃ db' r u', LoginUser env now db username? email? password
        = (db', Except.ok r) ∧
      r.status = 200 ∧
      findById db' u._id = some u' ∧
      u'.refreshToken = some r.bodyRefreshToken ∧
      r.cookieRefreshToken = r.bodyRefreshToken ∧
      r.cookieAccessToken = r.bodyAccessToken ∧
      r.bodyUser = some (toPublicUser u') := by
  have hr : LoginUser env now db username? email? password =
      (saveUser db { u with refreshToken := some (generateRefreshToken env now u) },
       Except.ok { status := 200,
                   cookieAccessToken := generateAccessToken env now u,
                   cookieRefreshToken := generateRefreshToken env now u,
                   bodyUser := Option.map toPublicUser (findById
                     (saveUser db { u with
                       refreshToken := some (generateRefreshToken env now u) }) u._id),
                   bodyAccessToken := generateAccessToken env now u,
                   bodyRefreshToken := generateRefreshToken env now u }) := by
    unfold LoginUser
    rw [if_neg hval, hfind]
    simp only [hpw, not_true_eq_false, if_false, Bool.true_eq_false]
    unfold generateAccessTokenAndRefreshToken
    rw [hbyid]
  have hfind' : findById
      (saveUser db { u with refreshToken := some (generateRefreshToken env now u) })
        u._id
      = some { u with refreshToken := some (generateRefreshToken env now u) } := by
    rw [findById_saveUser]
    have hsame : ({ u with
        refreshToken := some (generateRefreshToken env now u) } : UserRecord)._id
          = u._id := rfl
    rw [hsame, hbyid]
    simp
  exact ⟨_, _, { u with refreshToken := some (generateRefreshToken env now u) },
    hr, rfl, hfind', rfl, rfl, rfl, by simp [hfind']⟩

/-- Witness for `login_returns_persisted_refresh_token`: `ana` logs in with
her correct password on the concrete store. -/
theorem login_returns_persisted_refresh_token_witness :
    ∃ db' r u', LoginUser env1 5 db1 (some "ana") none "secret1"
        = (db', Except.ok r) ∧
      r.status = 200 ∧
      findById db' ana1._id = some u' ∧
      u'.refreshToken = some r.bodyRefreshToken ∧
      r.cookieRefreshToken = r.bodyRefreshToken ∧
      r.cookieAccessToken = r.bodyAccessToken ∧
      r.bodyUser = some (toPublicUser u') :=
  login_returns_persisted_refresh_token env1 5 db1 (some "ana") none "secret1"
    ana1 (by decide) rfl rfl (by decide)

/-- **C5** — confirmed.  Every rejection of `verifyJWT` carries status 401;
a missing/falsy token, a failed verification (malformed, wrong secret or
expired) or a missing identity each reject the request; and a valid token
whose subject exists attaches exactly the credential-free `PublicUser`
projection and continues.  `.ok` is the only outcome that attaches an
identity, so a rejected request never attaches one. -/
theorem verifyJWT_rejects_or_attaches (env : Env) (now : Nat) (db : Db)
    (req : AuthRequest) :
    (∀ e, verifyJWT env now db req = Except.error e → e.statusCode = 401) ∧
    ((jwtFalsy (extractToken req) = true ∨
      (∃ tok msg, extractToken req = some tok ∧
        jwtVerify tok env.accessTokenSecret now = Except.error msg) ∨
      (∃ tok uid, extractToken req = some tok ∧
        jwtVerify tok env.accessTokenSecret now = Except.ok uid ∧
        findById db uid = none)) →
      ∃ e, verifyJWT env now db req = Except.error e) ∧
    (∀ tok uid u, extractToken req = some tok →
      jwtVerify tok env.accessTokenSecret now = Except.ok uid →
      findById db uid = some u →
      verifyJWT env now db req = Except.ok (toPublicUser u)) := by
  refine ⟨?_, ?_, ?_⟩
  · intro e he
    unfold verifyJWT at he
    split at he
    · cases he; rfl
    · split at he
      · cases he; rfl
      · split at he
        · cases he; rfl
        · split at he
          · cases he; rfl
          · cases he
  · intro hbad
    unfold verifyJWT
    split
    · exact ⟨_, rfl⟩
    case _ hnf =>
      rcases hbad with hf | ⟨tok, msg, hext, hverr⟩ | ⟨tok, uid, hext, hvok, hfind⟩
      · exact absurd hf hnf
      · rw [hext]
        refine ⟨⟨401, msg⟩, ?_⟩
        simp [hverr]
      · rw [hext]
        refine ⟨⟨401, "Invalid access token (User not found)"⟩, ?_⟩
        simp [hvok, hfind]
  · intro tok uid u hext hvok hfind
    have hnf : jwtFalsy (some tok) = false := by
      cases tok with
      | signed t => rfl
      | malformed s =>
        exfalso
        simp [jwtVerify] at hvok
    unfold verifyJWT
    rw [hext, hnf]
    simp [hvok, hfind]

/-- Witness for `verifyJWT_rejects_or_attaches`: a valid access token for an
existing user attaches her credential-free projection. -/
theorem verifyJWT_rejects_or_attaches_witness :
    verifyJWT env1 5 db1 authReq1 = Except.ok (toPublicUser ana1) :=
  (verifyJWT_rejects_or_attaches env1 5 db1 authReq1).2.2 accessTok1 1 ana1
    rfl rfl rfl

/-- **C6 counterexample** — `changeCurrentPassword` with a wrong old password
fails with status **400** (message "invalid old password"), not 401 as the
claim states; the store is left unchanged. -/
theorem changePassword_wrong_old_is_400_not_401 :
    changeCurrentPassword db1 1 "wrong" "newpw"
      = (db1, Except.error (Failure.api ⟨400, "invalid old password"⟩)) ∧
    ∃ e, (changeCurrentPassword db1 1 "wrong" "newpw").2
        = Except.error (Failure.api e) ∧ e.statusCode = 400 ∧ e.statusCode ≠ 401 :=
  ⟨rfl, _, rfl, rfl, by simp⟩

/-- **C6 amended** — when the old password does not verify,
`changeCurrentPassword` fails with `ApiErrors(400, "invalid old password")`
(status 400, not 401) and the store — in particular the stored hash — is
unchanged; when it verifies, the new password's hash is persisted. -/
theorem changePassword_spec (db : Db) (uid : Nat)
    (oldPassword newPassword : String) (u : UserRecord)
    (hu : findById db uid = some u) :
    (isPasswordCorrect oldPassword u.password = false →
      changeCurrentPassword db uid oldPassword newPassword
        = (db, Except.error (Failure.api ⟨400, "invalid old password"⟩))) ∧
    (isPasswordCorrect oldPassword u.password = true →
      changeCurrentPassword db uid oldPassword newPassword
        = (saveUser db { u with password := hashPassword newPassword },
           Except.ok 200) ∧
      findById (saveUser db { u with password := hashPassword newPassword }) uid
        = some { u with password := hashPassword newPassword }) := by
  constructor
  · intro hbad
    unfold changeCurrentPassword
    rw [hu]
    simp [hbad]
  · intro hok
    constructor
    · unfold changeCurrentPassword
      rw [hu]
      simp [hok]
    · rw [findById_saveUser]
      have hid : u._id = uid := findById_id db uid u hu
      have hsame : ({ u with
          password := hashPassword newPassword } : UserRecord)._id = u._id := rfl
      rw [hsame, hid, hu]
      simp [← hid]

/-- Witness for `changePassword_spec`: on the concrete store, the wrong old
password leaves the store untouched with a 400, and the correct old password
persists the new hash. -/
theorem changePassword_spec_witness :
    changeCurrentPassword db1 1 "wrong" "pw2"
      = (db1, Except.error (Failure.api ⟨400, "invalid old password"⟩)) ∧
    changeCurrentPassword db1 1 "secret1" "pw2"
      = (saveUser db1 { ana1 with password := hashPassword "pw2" },
         Except.ok 200) :=
  ⟨(changePassword_spec db1 1 "wrong" "pw2" ana1 rfl).1 (by decide),
   ((changePassword_spec db1 1 "secret1" "pw2" ana1 rfl).2 (by decide)).1⟩

/-- **C7** — refuted on the code (code bug).  When the upload collaborator
fails, `registerUser` does answer 400 ("Avatar upload failed"), but
`updateUserAvatar` and `updateUserCoverImage` read `.url` on the `null` the
helper returned, raising a `TypeError` that the error boundary surfaces as a
500 server error, not a 400 validation failure. -/
theorem mandatory_upload_failure_not_400_in_update_handlers :
    (∃ m, (updateUserAvatar db1 1 (some "/tmp/a.png") (.throws "network")).2
        = Except.error (.raised m) ∧ boundaryStatus (.raised m) = 500) ∧
    (∃ m, (updateUserCoverImage db1 1 (some "/tmp/c.png") (.throws "network")).2
        = Except.error (.raised m) ∧ boundaryStatus (.raised m) = 500) ∧
    (registerUser [] regReq1 (.throws "network") (.ok ⟨"http://img/u.png"⟩) 2).2
      = Except.error (.api ⟨400, "Avatar upload failed"⟩) :=
  ⟨⟨_, rfl, rfl⟩, ⟨_, rfl, rfl⟩, rfl⟩

/-- **C8** — confirmed.  A successful `changeCurrentPassword` changes only the
password hash: every lookup returns the same stored refresh token as before,
and the whole refresh flow (in particular a refresh presenting the existing
session's token) has exactly the same outcome on the new store as on the old
one. -/
theorem changePassword_preserves_refresh_state (env : Env) (t : Nat)
    (db db' : Db) (uid : Nat) (oldPassword newPassword : String)
    (h : changeCurrentPassword db uid oldPassword newPassword
      = (db', Except.ok 200)) :
    (∀ s, Option.map UserRecord.refreshToken (findById db' s)
        = Option.map UserRecord.refreshToken (findById db s)) ∧
    (∀ tok?, (refreshAccessToken env t db' tok?).2
        = (refreshAccessToken env t db tok?).2) := by
  obtain ⟨u, hu, hdb'⟩ := changePassword_ok_inv db db' uid oldPassword newPassword h
  have huid : u._id = uid := findById_id db uid u hu
  have hu' : findById db u._id = some u := by rw [huid]; exact hu
  have hproj := proj_saveUser_password db u (hashPassword newPassword) hu'
  subst hdb'
  constructor
  · intro s
    have hthis := hproj s
    cases hA : findById (saveUser db { u with password := hashPassword newPassword }) s with
    | none =>
      cases hB : findById db s with
      | none => rfl
      | some v => rw [hA, hB] at hthis; simp at hthis
    | some w =>
      cases hB : findById db s with
      | none => rw [hA, hB] at hthis; simp at hthis
      | some v =>
        rw [hA, hB] at hthis
        simp at hthis ⊢
        exact hthis.2
  · intro tok?
    unfold refreshAccessToken
    by_cases hf : jwtFalsy tok? = true
    · simp [hf]
    · rw [if_neg hf, if_neg hf]
      cases tok? with
      | none => rfl
      | some tok =>
        dsimp only
        have hcong := refreshTry_snd_congr env t
          (saveUser db { u with password := hashPassword newPassword }) db tok hproj
        rcases hA : refreshTry env t
          (saveUser db { u with password := hashPassword newPassword }) tok with ⟨dA, resA⟩
        rcases hB : refreshTry env t db tok with ⟨dB, resB⟩
        rw [hA, hB] at hcong
        simp at hcong
        rw [hcong]
        cases resB with
        | ok r => rfl
        | error e => rfl

/-- Witness for `changePassword_preserves_refresh_state`: after `ana` changes
her password, her stored refresh token is unchanged and replaying her refresh
token gives the same outcome as before the change. -/
theorem changePassword_preserves_refresh_state_witness :
    Option.map UserRecord.refreshToken (findById db1pw 1)
      = Option.map UserRecord.refreshToken (findById db1 1) ∧
    (refreshAccessToken env1 5 db1pw (some refreshTok1)).2
      = (refreshAccessToken env1 5 db1 (some refreshTok1)).2 :=
  ⟨(changePassword_preserves_refresh_state env1 5 db1 db1pw 1 "secret1" "pw2"
      rfl).1 1,
   (changePassword_preserves_refresh_state env1 5 db1 db1pw 1 "secret1" "pw2"
      rfl).2 (some refreshTok1)⟩

/-- **C9** — confirmed.  For a non-empty local file path, `uploadOnCloudinary`
deletes the local temp file whether the upload call returns or throws, and
when it throws the function returns `null` instead of re-raising (the function
is total on these inputs). -/
theorem uploadOnCloudinary_cleanup (p : String) (outcome : CloudOutcome)
    (hp : p ≠ "") :
    (uploadOnCloudinary (some p) outcome).2 = true ∧
    ∀ msg, outcome = .throws msg →
      (uploadOnCloudinary (some p) outcome).1 = none := by
  constructor
  · unfold uploadOnCloudinary strFalsy
    cases outcome <;> simp [hp]
  · intro msg hmsg
    subst hmsg
    unfold uploadOnCloudinary strFalsy
    simp [hp]

/-- Witness for `uploadOnCloudinary_cleanup` at a concrete path and a throwing
upload. -/
theorem uploadOnCloudinary_cleanup_witness :
    (uploadOnCloudinary (some "/tmp/a.png") (.throws "network")).2 = true ∧
    (uploadOnCloudinary (some "/tmp/a.png") (.throws "network")).1 = none :=
  ⟨(uploadOnCloudinary_cleanup "/tmp/a.png" (.throws "network") (by decide)).1,
   (uploadOnCloudinary_cleanup "/tmp/a.png" (.throws "network") (by decide)).2
     "network" rfl⟩

/-- **C10** — confirmed.  `registerUser` fails with the 400
"All fields are required" validation error exactly when one of the four body
fields is *present* and trims to the empty string — an absent (`undefined`)
field never triggers it, because `f?.trim() === ""` is `false` for
`undefined` — and whenever the validation does not fire the handler proceeds
to the rest of the flow, whose first step is the duplicate-identity lookup. -/
theorem register_missing_fields_pass_validation (db : Db)
    (req : RegisterRequest) (ao co : CloudOutcome) (newId : Nat) :
    ((registerUser db req ao co newId).2
        = Except.error (Failure.api ⟨400, "All fields are required"⟩)
      ↔ ∃ f ∈ [req.fullname, req.email, req.username, req.password],
          ∃ s, f = some s ∧ jsTrim s = "") ∧
    (registerValidationFails req = false →
      registerUser db req ao co newId
        = registerAfterValidation db req ao co newId) := by
  have hiff : registerValidationFails req = true ↔
      ∃ f ∈ [req.fullname, req.email, req.username, req.password],
        ∃ s, f = some s ∧ jsTrim s = "" := by
    unfold registerValidationFails
    rw [List.any_eq_true]
    constructor
    · rintro ⟨f, hmem, hf⟩
      refine ⟨f, hmem, ?_⟩
      cases f with
      | none => simp [fieldEmptyAfterTrim] at hf
      | some s => exact ⟨s, rfl, by simpa [fieldEmptyAfterTrim] using hf⟩
    · rintro ⟨f, hmem, s, rfl, hs⟩
      exact ⟨some s, hmem, by simpa [fieldEmptyAfterTrim] using hs⟩
  constructor
  · constructor
    · intro herr
      by_cases hval : registerValidationFails req = true
      · exact hiff.mp hval
      · exfalso
        unfold registerUser at herr
        rw [if_neg hval] at herr
        exact registerAfterValidation_ne_allFieldsError db req ao co newId herr
    · intro hex
      have hval := hiff.mpr hex
      unfold registerUser
      rw [if_pos hval]
  · intro hval
    unfold registerUser
    rw [if_neg (by simp [hval])]

/-- Witness for `register_missing_fields_pass_validation`: a request whose
`username` is absent but whose present fields are non-blank passes the
validation and reaches the lookup phase (which here finds `ana`'s email and
answers 409 — past the validation, as the claim states). -/
theorem register_missing_fields_pass_validation_witness :
    registerUser db1 regReqNoUsername (.ok ⟨"http://img/u.png"⟩)
        (.ok ⟨"http://img/u.png"⟩) 2
      = registerAfterValidation db1 regReqNoUsername (.ok ⟨"http://img/u.png"⟩)
        (.ok ⟨"http://img/u.png"⟩) 2 ∧
    (registerUser db1 regReqNoUsername (.ok ⟨"http://img/u.png"⟩)
        (.ok ⟨"http://img/u.png"⟩) 2).2
      = Except.error (Failure.api ⟨409, "User already exists"⟩) :=
  ⟨(register_missing_fields_pass_validation db1 regReqNoUsername
      (.ok ⟨"http://img/u.png"⟩) (.ok ⟨"http://img/u.png"⟩) 2).2 (by decide),
   rfl⟩

end NodeBackend
